import Mathlib

/-!
Verification of the covariation-detection and error-correction pipeline of
`convex_qsr/error_correction.py` (the `ErrorCorrection` class and its helpers)
against its natural-language specification.

The Python code is shallowly embedded: pandas/numpy tables become Lean lists,
machine floats that only ever hold small exact values become `ℚ`, targeted
machine counts become `ℕ`, and fallible operations (the `IndexError` in
`multiple_testing_correction`, numpy's ambiguous-truth-value `ValueError`,
the `0/0 → NaN` in the error-rate estimate) are made explicit with
`Except`/`Option`.
-/

/-! ## Position tally (`get_nucleotide_counts`, lines 142-166)

One row of the Position Tally: per-position counts of A, C, G, T and the gap
character. -/

structure PosCounts where
  A : Nat
  C : Nat
  G : Nat
  T : Nat
  gap : Nat
  deriving DecidableEq, Repr

/-- `df['coverage'] = df[['A','C','G','T']].sum(axis=1)` (line 159). -/
def coverage (c : PosCounts) : Nat := c.A + c.C + c.G + c.T

/-- `df['nucleotide_max'] = df[['A','C','G','T']].max(axis=1)` (line 158). -/
def nucleotide_max (c : PosCounts) : Nat := max (max (max c.A c.C) c.G) c.T

/-- Lines 160-163: `df['consensus'] = '-'`, then for each character in the
order A, C, G, T, rows where `nucleotide_max` equals that character's count
get their consensus overwritten with the character.  Because the loop
overwrites, the base written last wins a tie. -/
def consensus (c : PosCounts) : Char :=
  [('A', c.A), ('C', c.C), ('G', c.G), ('T', c.T)].foldl
    (fun acc p => if nucleotide_max c = p.2 then p.1 else acc) '-'

/-- Modelled from the spec's words for claim C3: the consensus is the base of
maximum count with ties broken by the FIRST base in canonical order A,C,G,T,
and the gap character when the position has zero coverage. -/
def consensus_spec_first_tie (c : PosCounts) : Char :=
  if coverage c = 0 then '-'
  else if nucleotide_max c = c.A then 'A'
  else if nucleotide_max c = c.C then 'C'
  else if nucleotide_max c = c.G then 'G'
  else 'T'

/-- The amended description of the code's consensus rule: maximum-count base
with ties broken by the LAST base in canonical order A,C,G,T (a zero-coverage
position therefore gets 'T', never the gap character). -/
def consensus_last_tie (c : PosCounts) : Char :=
  if nucleotide_max c = c.T then 'T'
  else if nucleotide_max c = c.G then 'G'
  else if nucleotide_max c = c.C then 'C'
  else 'A'

/-! ## Benjamini-Hochberg correction (`multiple_testing_correction`, lines 212-233) -/

/-- One row of `all_cv_tests`, keeping the fields `multiple_testing_correction`
reads: the two reference positions and the p-value.  The table is globally
sorted ascending by p-value before this stage (line 209). -/
structure CvRow where
  col_i : Nat
  col_j : Nat
  p_value : ℚ
  deriving DecidableEq, Repr

/-- Line 215: `bh_corrected = all_cv_tests['p_value'] <= fdr*np.arange(1, m+1)/m`,
the Benjamini-Hochberg inequality evaluated positionally at 1-based ranks. -/
def bh_flags (fdr : ℚ) (rows : List CvRow) : List Bool :=
  (List.range rows.length).map (fun i =>
    decide ((rows.getD i ⟨0, 0, 0⟩).p_value ≤ fdr * ((i : ℚ) + 1) / (rows.length : ℚ)))

/-- Index of the first `false` in a list of booleans, if any: the model of
`(1-bh).to_numpy().nonzero()[0][0]` (line 217), which raises `IndexError`
when every flag is `true`. -/
def first_violation : List Bool → Option Nat
  | [] => none
  | b :: rest => if b then (first_violation rest).map (· + 1) else some 0

/-- `np.unique`: sorted, deduplicated values (lines 218-224; the subsequent
`covarying_sites.sort()` is a no-op on an already sorted array). -/
def np_unique (l : List Nat) : List Nat :=
  (List.insertionSort (fun a b => a ≤ b) l).dedup

/-- Lines 214-224 of `multiple_testing_correction`: the declared covarying
positions BEFORE end-trimming.  `cutoff` is the 0-based index of the first
BH violation; the union of `col_i`/`col_j` is taken over `iloc[:cutoff]`,
i.e. the rows strictly before that first violation.  When no rank violates
the inequality the indexing raises `IndexError`. -/
def declared_sites_pre_trim (fdr : ℚ) (rows : List CvRow) : Except String (List Nat) :=
  match first_violation (bh_flags fdr rows) with
  | none => .error "IndexError: index 0 is out of bounds for axis 0 with size 0"
  | some cutoff =>
      let taken := rows.take cutoff
      .ok (np_unique (taken.map (·.col_i) ++ taken.map (·.col_j)))

/-- Modelled from the words of claim C1: the union of `col_i`/`col_j` over all
rows AT OR BEFORE the first violating rank, i.e. including the violating row
itself (`none` when no rank violates). -/
def spec_declared_sites_inclusive (fdr : ℚ) (rows : List CvRow) : Option (List Nat) :=
  (first_violation (bh_flags fdr rows)).map (fun cutoff =>
    let taken := rows.take (cutoff + 1)
    np_unique (taken.map (·.col_i) ++ taken.map (·.col_j)))

/-- Lines 225-229: end-trimming of the covarying site set.  A site survives iff
it is STRICTLY greater than `end_correction` and strictly less than
`reference_length - end_correction` (the latter computed in `ℤ` as Python
integer arithmetic never truncates). -/
def end_trim (end_correction reference_length : Nat) (sites : List Nat) : List Nat :=
  sites.filter (fun s =>
    decide (end_correction < s) &&
    decide ((s : ℤ) < (reference_length : ℤ) - (end_correction : ℤ)))

/-- `multiple_testing_correction` (lines 212-233): BH cutoff, site union, then
end-trimming.  The `Except` carries the `IndexError` of line 217. -/
def multiple_testing_correction (fdr : ℚ) (end_correction reference_length : Nat)
    (rows : List CvRow) : Except String (List Nat) :=
  (declared_sites_pre_trim fdr rows).map (end_trim end_correction reference_length)

/-! ## Error model and significant-variant filter (`get_covarying_errors`, lines 235-266) -/

/-- Count of one base in a tally row, as read by the melt over
`value_vars=['A','C','G','T']` (line 256). -/
def base_count (c : PosCounts) (b : Char) : Nat :=
  if b = 'A' then c.A
  else if b = 'C' then c.C
  else if b = 'G' then c.G
  else if b = 'T' then c.T
  else c.gap

/-- Lines 237-241: the summed coverage over the rows whose `covarying` flag is
false (positions not in the covarying site set); `tally` is indexed by
reference position. -/
def total_coverage (tally : List PosCounts) (cs : List Nat) : Nat :=
  ((tally.enum.filter (fun pc => decide (pc.1 ∉ cs))).map (fun pc => coverage pc.2)).sum

/-- Lines 237-242: the summed `nucleotide_max` (consensus-base count) over the
non-covarying rows. -/
def total_consensus (tally : List PosCounts) (cs : List Nat) : Nat :=
  ((tally.enum.filter (fun pc => decide (pc.1 ∉ cs))).map (fun pc => nucleotide_max pc.2)).sum

/-- The value line 243 computes when the denominator is nonzero:
`np.abs(total_coverage - total_consensus) / total_consensus`. -/
def error_rate_val (tally : List PosCounts) (cs : List Nat) : ℚ :=
  |(total_coverage tally cs : ℚ) - (total_consensus tally cs : ℚ)| /
    (total_consensus tally cs : ℚ)

/-- Line 243 as executed by floating point: when `total_consensus` is zero the
division is `0/0` and yields NaN, modelled as `none`; there is no special case
in the code. -/
def error_rate (tally : List PosCounts) (cs : List Nat) : Option ℚ :=
  if total_consensus tally cs = 0 then none else some (error_rate_val tally cs)

/-- Binomial probability mass function over `ℚ`. -/
def binom_pmf (n : Nat) (p : ℚ) (i : Nat) : ℚ :=
  (n.choose i : ℚ) * p ^ i * (1 - p) ^ (n - i)

/-- Binomial cumulative distribution function at `k`. -/
def binom_cdf (n : Nat) (p : ℚ) (k : Nat) : ℚ :=
  ((List.range (k + 1)).map (binom_pmf n p)).sum

/-- `scipy.stats.binom.ppf(q, n, p)` for `0 < q ≤ 1` and `p ∈ [0,1]`: the
smallest count `k` with `binom_cdf n p k ≥ q` (the quantile is integer-valued,
so it is returned as `ℕ`). -/
def binom_ppf (q : ℚ) (n : Nat) (p : ℚ) : Nat :=
  ((List.range (n + 1)).find? (fun k => decide (q ≤ binom_cdf n p k))).getD n

/-- One melted row of `site_counts` (lines 253-257): a covarying site, one of
the four bases (`variable`), its count at the site (`value`), and the site's
`n_error` threshold (`none` models the NaN produced when the error rate was
`0/0`). -/
structure CovErr where
  site : Nat
  var : Char
  value : Nat
  n_error : Option Nat
  deriving DecidableEq, Repr

/-- Lines 244-257: every (covarying site, base) observation with its `n_error`
threshold `binom.ppf(1 - error_threshold, coverage, error_rate)`, melted in
pandas order (all A rows, then C, G, T). -/
def melt_rows (θ : ℚ) (tally : List PosCounts) (cs : List Nat) : List CovErr :=
  ['A', 'C', 'G', 'T'].flatMap (fun b =>
    (tally.enum.filter (fun pc => decide (pc.1 ∈ cs))).map (fun pc =>
      ⟨pc.1, b, base_count pc.2 b,
       (error_rate tally cs).map (fun r => binom_ppf (1 - θ) (coverage pc.2) r)⟩))

/-- Lines 258-261: `significant = (value <= n_error) & (value > 0)`.  A NaN
threshold (modelled `none`) compares false. -/
def significant (e : CovErr) : Bool :=
  match e.n_error with
  | none => false
  | some ne => decide (e.value ≤ ne) && decide (0 < e.value)

/-- Lines 253-266: the covarying-error records, i.e. the significant melted
rows sorted by site. -/
def get_covarying_errors (θ : ℚ) (tally : List PosCounts) (cs : List Nat) : List CovErr :=
  List.insertionSort (fun a b => a.site ≤ b.site) ((melt_rows θ tally cs).filter significant)

/-! ## Reads, the corrector (`corrected_reads`, lines 302-355) -/

/-- A mapped read at the level the corrector and the k-mer filter consume it:
`sequence` is the CIGAR-resolved per-reference-position character array that
`read_count_data` returns (so `reference_end = reference_start + |sequence|`),
`query`/`aligned_pairs` are the unaligned sequence and the matches-only
(query position, reference position) pairs used by `kmers_in_reads`. -/
structure Read where
  query_name : String
  reference_start : Nat
  sequence : List Char
  query : List Char
  aligned_pairs : List (Nat × Nat)
  query_length : Nat
  deriving DecidableEq, Repr

def Read.reference_end (r : Read) : Nat := r.reference_start + r.sequence.length

/-- Python truthiness of a numpy integer array, as exercised by
`not self.covarying_sites` (line 305): empty is falsy, a single element has its
own truth value, and two or more elements raise `ValueError`. -/
def np_truthy : List Nat → Except String Bool
  | [] => .ok false
  | [x] => .ok (decide (x ≠ 0))
  | _ => .error "ValueError: The truth value of an array with more than one element is ambiguous."

/-- Slice assignment `l[s : s + vals.length] = vals` on a numpy array, written
pointwise. -/
def set_slice {α : Type} (l : List α) (s : Nat) (vals : List α) : List α :=
  l.enum.map (fun p => if s ≤ p.1 ∧ p.1 < s + vals.length then vals.getD (p.1 - s) p.2 else p.2)

/-- The per-read body of `corrected_reads` (lines 314-338): positions of the
read's span not in the covarying set are overwritten with the local consensus
(lines 315-324); when `end_correction` is nonzero, the head (lines 327-332)
and tail (lines 333-338) trim regions are overwritten with consensus
unconditionally.  Only the sequence changes; name/start/metadata carry over to
the emitted record. -/
def correct_read (tally : List PosCounts) (end_correction reference_length : Nat)
    (cs : List Nat) (r : Read) : Read :=
  let intra := cs.filter (fun s => decide (r.reference_start ≤ s) && decide (s < r.reference_end))
  let seq1 := (List.range r.sequence.length).map (fun i =>
    if (r.reference_start + i) ∈ intra then r.sequence.getD i '-'
    else consensus (tally.getD (r.reference_start + i) ⟨0, 0, 0, 0, 0⟩))
  let seq2 :=
    if end_correction ≠ 0 ∧ r.reference_start < end_correction then
      set_slice seq1 0
        (((tally.drop r.reference_start).take (end_correction - r.reference_start)).map consensus)
    else seq1
  let tail_cutoff := reference_length - end_correction
  let seq3 :=
    if end_correction ≠ 0 ∧ tail_cutoff < r.reference_end then
      set_slice seq2 (seq2.length - (r.reference_end - tail_cutoff))
        (((tally.drop tail_cutoff).take (r.reference_end - tail_cutoff)).map consensus)
    else seq2
  { r with sequence := seq3 }

/-- The `ErrorCorrection` instance state consumed by `corrected_reads`:
the read stream, the reference length, the cached Position Tally
(`nucleotide_counts`), the sorted covariation-test table, the
covarying-site cache (`none` = not yet computed), and the configuration. -/
structure ErrorCorrection where
  reads : List Read
  reference_length : Nat
  nucleotide_counts : List PosCounts
  all_cv_tests : List CvRow
  covarying_sites : Option (List Nat)
  error_threshold : ℚ
  end_correction : Nat

/-- `corrected_reads` (lines 302-355).  Line 305 coerces the cached covarying
sites to a boolean: `None` or a falsy array re-derives the covarying sites
from the (sorted) test table via `multiple_testing_correction` at the default
FDR 0.001; a numpy array of two or more sites raises `ValueError` before any
read is yielded; otherwise the cached sites are used and every fetched read is
corrected with `correct_read`. -/
def corrected_reads (st : ErrorCorrection) : Except String (List Read) :=
  let correct_all := fun cs =>
    st.reads.map (correct_read st.nucleotide_counts st.end_correction st.reference_length cs)
  match st.covarying_sites with
  | none =>
      (multiple_testing_correction (1/1000) st.end_correction st.reference_length
        st.all_cv_tests).map correct_all
  | some cs =>
      match np_truthy cs with
      | .error e => .error e
      | .ok true => .ok (correct_all cs)
      | .ok false =>
          (multiple_testing_correction (1/1000) st.end_correction st.reference_length
            st.all_cv_tests).map correct_all

/-! ## k-mer filter (`kmers_in_reads` lines 380-404, `filtered_reads` lines 406-423) -/

/-- Lines 386-389: the covarying sites inside a read's span. -/
def inter_read_cvs (cs : List Nat) (r : Read) : List Nat :=
  cs.filter (fun s => decide (r.reference_start ≤ s) && decide (s < r.reference_end))

/-- Lines 390-400 for one read: `characters_at_cvs` are the query characters at
matches-only aligned pairs whose reference position is a covarying site in the
span; the loop `for i in range(len(inter_read_cvs) - k)` records, for each
starting offset `i`, the k-mer `characters_at_cvs[i:i+k]` under the site
`inter_read_cvs[i]` together with the read's name. -/
def read_kmer_entries (k : Nat) (cs : List Nat) (r : Read) : List (Nat × List Char × String) :=
  let inter := inter_read_cvs cs r
  let chars := (r.aligned_pairs.filter (fun p => decide (p.2 ∈ inter))).map
    (fun p => r.query.getD p.1 '-')
  (List.range (inter.length - k)).map (fun i =>
    (inter.getD i 0, (chars.drop i).take k, r.query_name))

/-- `kmers_in_reads` flattened: the `kmer_dict` is an association of
(site, k-mer) keys to the list of read names recorded for that key; here it is
kept as the flat list of (site, k-mer, read name) insertions. -/
def kmers_in_reads (k : Nat) (cs : List Nat) (reads : List Read) :
    List (Nat × List Char × String) :=
  reads.flatMap (read_kmer_entries k cs)

/-- The value list of the `kmer_dict` at key (site, k-mer): all read names
recorded under that site and k-mer. -/
def kmer_group (entries : List (Nat × List Char × String)) (site : Nat) (w : List Char) :
    List String :=
  (entries.filter (fun e => decide (e.1 = site) && decide (e.2.1 = w))).map (fun e => e.2.2)

/-- Lines 407-417: a read name lands in `skip_dict` iff some k-mer entry it
produced belongs to a (site, k-mer) group recorded in fewer than `cutoff`
reads. -/
def is_suspect (k cutoff : Nat) (cs : List Nat) (reads : List Read) (name : String) : Bool :=
  (kmers_in_reads k cs reads).any (fun e =>
    decide (e.2.2 = name) &&
    decide ((kmer_group (kmers_in_reads k cs reads) e.1 e.2.1).length < cutoff))

/-- Lines 418-423: a read is yielded iff its name is not in `skip_dict` and
`read.query_length > minimum_length` (strict). -/
def filtered_reads (k cutoff minimum_length : Nat) (cs : List Nat) (reads : List Read) :
    List Read :=
  reads.filter (fun r =>
    !(is_suspect k cutoff cs reads r.query_name) && decide (minimum_length < r.query_length))

/-! ## Helper lemmas -/

theorem first_violation_spec (bs : List Bool) (c : Nat) (h : first_violation bs = some c) :
    c < bs.length ∧ (∀ i, i < c → bs.getD i false = true) ∧ bs.getD c true = false := by
  induction bs generalizing c with
  | nil => simp [first_violation] at h
  | cons b rest ih =>
    cases b with
    | false =>
      have hc : c = 0 := by
        have : (some 0 : Option Nat) = some c := by simpa [first_violation] using h
        simpa using this.symm
      subst hc
      exact ⟨Nat.succ_pos _, by omega, rfl⟩
    | true =>
      cases hfv : first_violation rest with
      | none =>
          rw [show first_violation (true :: rest) = (first_violation rest).map (· + 1) from rfl,
            hfv] at h
          simp at h
      | some x =>
          rw [show first_violation (true :: rest) = (first_violation rest).map (· + 1) from rfl,
            hfv] at h
          have hc : c = x + 1 := by simpa using h.symm
          subst hc
          obtain ⟨h1, h2, h3⟩ := ih x hfv
          refine ⟨by simpa using Nat.succ_lt_succ h1, ?_, by simpa using h3⟩
          intro i hi
          cases i with
          | zero => simp
          | succ j => simpa using h2 j (Nat.lt_of_succ_lt_succ hi)

theorem first_violation_none (bs : List Bool)
    (h : ∀ i, i < bs.length → bs.getD i false = true) : first_violation bs = none := by
  induction bs with
  | nil => rfl
  | cons b rest ih =>
    have hb : b = true := by simpa using h 0 (Nat.succ_pos _)
    subst hb
    simp only [first_violation, if_true]
    rw [ih fun i hi => by simpa using h (i + 1) (Nat.succ_lt_succ hi)]
    rfl

theorem bh_flags_length (fdr : ℚ) (rows : List CvRow) :
    (bh_flags fdr rows).length = rows.length := by
  simp [bh_flags]

theorem bh_flags_getD (fdr : ℚ) (rows : List CvRow) (i : Nat) (h : i < rows.length) (d : Bool) :
    (bh_flags fdr rows).getD i d =
      decide ((rows.getD i ⟨0, 0, 0⟩).p_value ≤ fdr * ((i : ℚ) + 1) / (rows.length : ℚ)) := by
  simp [bh_flags, List.getD_eq_getElem?_getD, List.getElem?_map, List.getElem?_range h]

/-! ## Claim C1: which rows contribute to the declared covarying sites -/

/-- Counterexample to claim C1 as stated: with a single test row (p-value 1,
positions 3 and 7) and FDR 1/1000, the BH inequality fails already at rank 1;
the claim's reading ("rows at or before the first violating rank") would
declare positions 3 and 7, but the code declares nothing, because
`iloc[:cutoff]` stops strictly before the violating row. -/
theorem bh_inclusive_spec_counterexample :
    declared_sites_pre_trim (1/1000) [⟨3, 7, 1⟩] = .ok [] ∧
    spec_declared_sites_inclusive (1/1000) [⟨3, 7, 1⟩] = some [3, 7] ∧
    ([] : List Nat) ≠ [3, 7] := by
  have hflag : bh_flags (1/1000) [⟨3, 7, 1⟩] = [false] := by
    have h1 : List.range 1 = [0] := rfl
    simp only [bh_flags, List.length_cons, List.length_nil, h1, List.map_cons, List.map_nil,
      List.cons.injEq, and_true, decide_eq_false_iff_not, List.getD_cons_zero]
    norm_num
  refine ⟨?_, ?_, by decide⟩
  · rw [declared_sites_pre_trim, hflag]; rfl
  · rw [spec_declared_sites_inclusive, hflag]; rfl

/-- Claim C1, amended: the rows contributing to the covarying-site union are
exactly those STRICTLY BEFORE the first rank at which the BH inequality
`p(rank) ≤ fdr·rank/m` fails (the violating row itself is excluded), i.e. the
number of contributing rows is the first violating 1-based rank minus one. -/
theorem bh_declared_sites_strictly_before_first_violation (fdr : ℚ) (rows : List CvRow)
    (c : Nat) (h : first_violation (bh_flags fdr rows) = some c) :
    c < rows.length ∧
    (∀ i, i < c →
      (rows.getD i ⟨0, 0, 0⟩).p_value ≤ fdr * ((i : ℚ) + 1) / (rows.length : ℚ)) ∧
    ¬ ((rows.getD c ⟨0, 0, 0⟩).p_value ≤ fdr * ((c : ℚ) + 1) / (rows.length : ℚ)) ∧
    declared_sites_pre_trim fdr rows =
      .ok (np_unique ((rows.take c).map (·.col_i) ++ (rows.take c).map (·.col_j))) := by
  obtain ⟨h1, h2, h3⟩ := first_violation_spec _ _ h
  rw [bh_flags_length] at h1
  refine ⟨h1, ?_, ?_, ?_⟩
  · intro i hi
    have hd := h2 i hi
    rw [bh_flags_getD fdr rows i (lt_trans hi h1)] at hd
    exact of_decide_eq_true hd
  · have hd := h3
    rw [bh_flags_getD fdr rows c h1] at hd
    exact of_decide_eq_false hd
  · rw [declared_sites_pre_trim, h]

/-- Witness for the amended C1 theorem at the concrete one-row table: the first
violation is at rank 1 (index 0), no row contributes, and the pre-trim site
set is empty. -/
theorem bh_declared_sites_witness :
    (0 : Nat) < ([⟨3, 7, 1⟩] : List CvRow).length ∧
    (∀ i, i < 0 →
      (([⟨3, 7, 1⟩] : List CvRow).getD i ⟨0, 0, 0⟩).p_value ≤
        (1/1000 : ℚ) * ((i : ℚ) + 1) / (([⟨3, 7, 1⟩] : List CvRow).length : ℚ)) ∧
    ¬ ((([⟨3, 7, 1⟩] : List CvRow).getD 0 ⟨0, 0, 0⟩).p_value ≤
        (1/1000 : ℚ) * ((0 : ℚ) + 1) / (([⟨3, 7, 1⟩] : List CvRow).length : ℚ)) ∧
    declared_sites_pre_trim (1/1000) [⟨3, 7, 1⟩] =
      .ok (np_unique ((([⟨3, 7, 1⟩] : List CvRow).take 0).map (·.col_i) ++
        (([⟨3, 7, 1⟩] : List CvRow).take 0).map (·.col_j))) :=
  bh_declared_sites_strictly_before_first_violation (1/1000) [⟨3, 7, 1⟩] 0 (by
    have hflag : bh_flags (1/1000) [⟨3, 7, 1⟩] = [false] := by
      have h1 : List.range 1 = [0] := rfl
      simp only [bh_flags, List.length_cons, List.length_nil, h1, List.map_cons, List.map_nil,
        List.cons.injEq, and_true, decide_eq_false_iff_not, List.getD_cons_zero]
      norm_num
    rw [hflag]; rfl)

/-! ## Claim C2: end-trimming boundary -/

/-- Counterexample to claim C2 as stated: with `end_correction = 5` and
reference length 100, a covarying site at index exactly 5 satisfies the
claim's survival condition (5 ≥ 5 and 5 < 95) but the code removes it, since
line 225 uses a strict `covarying_sites > self.end_correction`. -/
theorem end_trim_boundary_counterexample :
    end_trim 5 100 [5] = [] ∧ (5 : Nat) ≥ 5 ∧ (5 : ℤ) < (100 : ℤ) - (5 : ℤ) := by decide

/-- Claim C2, amended: a position survives end-trimming of the covarying site
set iff its index is STRICTLY GREATER than `end_correction` and strictly less
than `reference_length - end_correction`; a site at index exactly
`end_correction` is excluded. -/
theorem end_trim_mem_iff (ec L : Nat) (sites : List Nat) (s : Nat) :
    s ∈ end_trim ec L sites ↔ s ∈ sites ∧ ec < s ∧ (s : ℤ) < (L : ℤ) - (ec : ℤ) := by
  simp [end_trim, List.mem_filter]

/-! ## Claim C3: the consensus rule -/

/-- Counterexample to claim C3 as stated: at counts A=1, C=1, G=0, T=0 the code
computes consensus 'C' while the claim's first-base tie-breaking gives 'A';
at zero coverage the code computes 'T' while the claim requires the gap
character. -/
theorem consensus_first_tie_gap_counterexample :
    consensus ⟨1, 1, 0, 0, 0⟩ = 'C' ∧ consensus_spec_first_tie ⟨1, 1, 0, 0, 0⟩ = 'A' ∧
    consensus ⟨0, 0, 0, 0, 0⟩ = 'T' ∧ consensus_spec_first_tie ⟨0, 0, 0, 0, 0⟩ = '-' ∧
    ('C' : Char) ≠ 'A' ∧ ('T' : Char) ≠ '-' := by decide

/-- Claim C3, amended: the consensus is the base among A,C,G,T attaining
`nucleotide_max`, with ties broken by the LAST base in canonical order
A,C,G,T; in particular a zero-coverage position gets consensus 'T', and the
gap initialization of line 160 is always overwritten (the consensus is never
the gap character). -/
theorem consensus_eq_last_tie (c : PosCounts) :
    consensus c = consensus_last_tie c ∧ consensus c ≠ '-' := by
  have hmax : nucleotide_max c = c.A ∨ nucleotide_max c = c.C ∨
      nucleotide_max c = c.G ∨ nucleotide_max c = c.T := by
    rw [nucleotide_max]; omega
  have heq : consensus c = consensus_last_tie c := by
    rw [consensus, consensus_last_tie]
    simp only [List.foldl]
    split_ifs with h1 h2 h3 h4 <;> try rfl
    exact absurd hmax (by simp [h1, h2, h3, h4])
  refine ⟨heq, ?_⟩
  rw [heq, consensus_last_tie]
  split_ifs <;> decide

/-! ## Claim C8: the implicit IndexError when no rank violates BH -/

/-- Claim C8: when every rank satisfies the BH inequality (for example when all
p-values are 0), line 217's `nonzero()[0][0]` indexes an empty array and
`multiple_testing_correction` raises `IndexError` instead of returning a
covarying site set. -/
theorem mtc_all_pass_raises_index_error (fdr : ℚ) (ec L : Nat) (rows : List CvRow)
    (h : ∀ i, i < rows.length →
      (rows.getD i ⟨0, 0, 0⟩).p_value ≤ fdr * ((i : ℚ) + 1) / (rows.length : ℚ)) :
    multiple_testing_correction fdr ec L rows =
      .error "IndexError: index 0 is out of bounds for axis 0 with size 0" := by
  have hfv : first_violation (bh_flags fdr rows) = none := by
    apply first_violation_none
    intro i hi
    rw [bh_flags_length] at hi
    rw [bh_flags_getD fdr rows i hi]
    exact decide_eq_true (h i hi)
  rw [multiple_testing_correction, declared_sites_pre_trim, hfv]
  rfl

/-- Witness for C8: two rows, both with p-value 0, FDR 1/1000. -/
theorem mtc_all_pass_witness :
    multiple_testing_correction (1/1000) 0 10 [⟨1, 2, 0⟩, ⟨3, 4, 0⟩] =
      .error "IndexError: index 0 is out of bounds for axis 0 with size 0" :=
  mtc_all_pass_raises_index_error (1/1000) 0 10 [⟨1, 2, 0⟩, ⟨3, 4, 0⟩] (by
    intro i hi
    simp only [List.length_cons, List.length_nil] at hi
    interval_cases i <;> norm_num [List.getD_cons_zero, List.getD_cons_succ])

/-! ## Claim C4: the significance classification of covarying observations -/

/-- Claim C4: a (covarying site, base) observation appears in the
covarying-error records iff its count is strictly positive and at most
`n_error`, where `n_error` is the `(1 - error_threshold)` quantile of the
binomial distribution with the site's coverage as the number of trials and
the background error rate as success probability. -/
theorem covarying_error_significant_iff (θ : ℚ) (tally : List PosCounts) (cs : List Nat)
    (s : Nat) (b : Char) (pc : PosCounts)
    (hb : b ∈ ['A', 'C', 'G', 'T'])
    (hs : s ∈ cs)
    (hpc : tally[s]? = some pc)
    (hrate : total_consensus tally cs ≠ 0) :
    (⟨s, b, base_count pc b,
        some (binom_ppf (1 - θ) (coverage pc) (error_rate_val tally cs))⟩ : CovErr) ∈
      get_covarying_errors θ tally cs ↔
    (0 < base_count pc b ∧
      base_count pc b ≤ binom_ppf (1 - θ) (coverage pc) (error_rate_val tally cs)) := by
  have hsig : significant ⟨s, b, base_count pc b,
      some (binom_ppf (1 - θ) (coverage pc) (error_rate_val tally cs))⟩ = true ↔
      (0 < base_count pc b ∧
        base_count pc b ≤ binom_ppf (1 - θ) (coverage pc) (error_rate_val tally cs)) := by
    simp [significant]
    tauto
  have hmelt : (⟨s, b, base_count pc b,
      some (binom_ppf (1 - θ) (coverage pc) (error_rate_val tally cs))⟩ : CovErr) ∈
      melt_rows θ tally cs := by
    rw [melt_rows]
    apply List.mem_flatMap.mpr
    refine ⟨b, hb, ?_⟩
    apply List.mem_map.mpr
    refine ⟨(s, pc), ?_, ?_⟩
    · rw [List.mem_filter]
      exact ⟨List.mk_mem_enum_iff_getElem?.mpr hpc, by simpa using hs⟩
    · simp [error_rate, hrate]
  rw [get_covarying_errors, (List.perm_insertionSort _ _).mem_iff, List.mem_filter]
  constructor
  · rintro ⟨-, h2⟩
    exact hsig.mp h2
  · intro h
    exact ⟨hmelt, hsig.mpr h⟩

/-- Witness for C4 at a concrete table: positions 0 (non-covarying, counts
A=9, C=1) and 1 (covarying, counts A=1, C=5); the base-A observation at the
covarying site. -/
theorem covarying_error_witness :
    ((⟨1, 'A', base_count ⟨1, 5, 0, 0, 0⟩ 'A',
        some (binom_ppf (1 - 1/1000) (coverage ⟨1, 5, 0, 0, 0⟩)
          (error_rate_val [⟨9, 1, 0, 0, 0⟩, ⟨1, 5, 0, 0, 0⟩] [1]))⟩ : CovErr) ∈
      get_covarying_errors (1/1000) [⟨9, 1, 0, 0, 0⟩, ⟨1, 5, 0, 0, 0⟩] [1] ↔
    (0 < base_count ⟨1, 5, 0, 0, 0⟩ 'A' ∧
      base_count ⟨1, 5, 0, 0, 0⟩ 'A' ≤ binom_ppf (1 - 1/1000) (coverage ⟨1, 5, 0, 0, 0⟩)
        (error_rate_val [⟨9, 1, 0, 0, 0⟩, ⟨1, 5, 0, 0, 0⟩] [1]))) :=
  covarying_error_significant_iff (1/1000) [⟨9, 1, 0, 0, 0⟩, ⟨1, 5, 0, 0, 0⟩] [1] 1 'A'
    ⟨1, 5, 0, 0, 0⟩ (by decide) (by decide) (by rfl) (by decide)

/-! ## Claim C7: the zero-total-consensus case is NOT special-cased -/

/-- Claim C7 evaluated at a failing input: with every position covarying, the
summed consensus-base count over non-covarying positions is 0, so line 243
divides `|0 - 0| / 0`; floating point yields NaN (modelled `none`) with no
special case in the code, and the NaN `n_error` silently classifies every
covarying observation as non-significant. -/
theorem error_rate_div_by_zero_when_all_covarying :
    total_consensus [⟨1, 1, 0, 0, 0⟩, ⟨2, 1, 0, 0, 0⟩] [0, 1] = 0 ∧
    error_rate [⟨1, 1, 0, 0, 0⟩, ⟨2, 1, 0, 0, 0⟩] [0, 1] = none ∧
    get_covarying_errors (1/1000) [⟨1, 1, 0, 0, 0⟩, ⟨2, 1, 0, 0, 0⟩] [0, 1] = [] := by
  refine ⟨by decide, by decide, by decide⟩

/-! ## Claim C10: k-mer windows recorded per read -/

/-- Claim C10: a read whose span covers `n` covarying sites contributes exactly
`max (n - k) 0` k-mer entries, and only for starting offsets strictly below
`n - k` (so the window starting at the last possible offset `n - k` is never
recorded, and a read spanning exactly `k` covarying sites contributes
nothing): the loop is `for i in range(len(inter_read_cvs) - k)`. -/
theorem read_kmer_window_count (k : Nat) (cs : List Nat) (r : Read) :
    ((read_kmer_entries k cs r).length : ℤ) =
      max (((inter_read_cvs cs r).length : ℤ) - (k : ℤ)) 0 ∧
    ∀ e ∈ read_kmer_entries k cs r, ∃ i, i < (inter_read_cvs cs r).length - k ∧
      e.1 = (inter_read_cvs cs r).getD i 0 := by
  constructor
  · have hlen : (read_kmer_entries k cs r).length = (inter_read_cvs cs r).length - k := by
      simp [read_kmer_entries]
    rw [hlen]
    omega
  · intro e he
    simp only [read_kmer_entries, List.mem_map, List.mem_range] at he
    obtain ⟨i, hi, hei⟩ := he
    exact ⟨i, hi, by rw [← hei]⟩

/-! ## Claim C5: the k-mer filter's output -/

/-- Counterexample to claim C5 as stated: a read of length exactly the minimum
length threshold (100) is "not shorter than" the threshold and not suspect,
so the claim would keep it, yet `filtered_reads` drops it because line 420
requires `read.query_length > minimum_length` strictly. -/
theorem filtered_reads_boundary_counterexample :
    filtered_reads 4 20 100 [] [⟨"r0", 0, ['A'], ['A'], [(0, 0)], 100⟩] = [] ∧
    is_suspect 4 20 [] [⟨"r0", 0, ['A'], ['A'], [(0, 0)], 100⟩] "r0" = false ∧
    ¬ ((⟨"r0", 0, ['A'], ['A'], [(0, 0)], 100⟩ : Read).query_length < 100) := by decide

/-- Claim C5, amended: a read appears in the k-mer filter's output iff it is
one of the input reads, it is not marked suspect (no k-mer entry it produced
at a covarying starting site belongs to a (site, k-mer) group recorded in
fewer than `cutoff` reads), and it is STRICTLY LONGER than the minimum length
threshold.  The suspect instance of the claim (a k-mer occurring in 3 reads
with cutoff 20 excludes the read) follows from the second conjunct. -/
theorem filtered_reads_mem_iff (k cutoff m : Nat) (cs : List Nat) (reads : List Read)
    (r : Read) :
    r ∈ filtered_reads k cutoff m cs reads ↔
      r ∈ reads ∧
      ¬ (∃ e ∈ kmers_in_reads k cs reads, e.2.2 = r.query_name ∧
          (kmer_group (kmers_in_reads k cs reads) e.1 e.2.1).length < cutoff) ∧
      m < r.query_length := by
  simp [filtered_reads, List.mem_filter, is_suspect, List.any_eq_true]

/-! ## Claim C9: the ambiguous-truth-value error in the corrector -/

/-- Claim C9: when the covarying-site cache already holds two or more sites,
line 305's `not self.covarying_sites` coerces a multi-element numpy array to a
boolean, which raises `ValueError`, so `corrected_reads` yields no read. -/
theorem corrected_reads_ambiguous_truth (st : ErrorCorrection) (cs : List Nat)
    (h1 : st.covarying_sites = some cs) (h2 : 2 ≤ cs.length) :
    corrected_reads st =
      .error
        "ValueError: The truth value of an array with more than one element is ambiguous." := by
  cases cs with
  | nil => simp at h2
  | cons x t =>
    cases t with
    | nil => simp at h2
    | cons y u => simp [corrected_reads, h1, np_truthy]

/-- Witness for C9: a one-read state whose covarying-site cache holds the two
sites 3 and 7. -/
theorem corrected_reads_ambiguous_truth_witness :
    corrected_reads ⟨[⟨"read1", 0, ['A'], ['A'], [(0, 0)], 1⟩], 10, [⟨1, 0, 0, 0, 0⟩],
        [], some [3, 7], 1/1000, 0⟩ =
      .error
        "ValueError: The truth value of an array with more than one element is ambiguous." :=
  corrected_reads_ambiguous_truth
    ⟨[⟨"read1", 0, ['A'], ['A'], [(0, 0)], 1⟩], 10, [⟨1, 0, 0, 0, 0⟩],
      [], some [3, 7], 1/1000, 0⟩
    [3, 7] rfl (by decide)

/-! ## Claim C6: the all-consensus round trip through the corrector -/

/-- Claim C6: in a state where the corrector runs off its cached covarying
sites, a read whose sequence equals the local consensus at every position of
its span, with no covarying site inside its span and end-correction zero, is
emitted with its sequence unchanged. -/
theorem corrected_read_roundtrip (st : ErrorCorrection) (cs : List Nat) (r : Read)
    (hcs : st.covarying_sites = some cs)
    (htr : np_truthy cs = .ok true)
    (hr : r ∈ st.reads)
    (hec : st.end_correction = 0)
    (hspan : ∀ s ∈ cs, ¬(r.reference_start ≤ s ∧ s < r.reference_end))
    (hcons : ∀ i, i < r.sequence.length →
      r.sequence.getD i '-' =
        consensus (st.nucleotide_counts.getD (r.reference_start + i) ⟨0, 0, 0, 0, 0⟩)) :
    corrected_reads st =
      .ok (st.reads.map
        (correct_read st.nucleotide_counts st.end_correction st.reference_length cs)) ∧
    correct_read st.nucleotide_counts st.end_correction st.reference_length cs r ∈
      st.reads.map
        (correct_read st.nucleotide_counts st.end_correction st.reference_length cs) ∧
    (correct_read st.nucleotide_counts st.end_correction st.reference_length cs r).sequence =
      r.sequence := by
  refine ⟨?_, List.mem_map_of_mem _ hr, ?_⟩
  · simp [corrected_reads, hcs, htr]
  · have hintra : cs.filter
        (fun s => decide (r.reference_start ≤ s) && decide (s < r.reference_end)) = [] := by
      rw [List.filter_eq_nil_iff]
      intro s hsmem
      simpa using hspan s hsmem
    rw [hec]
    simp only [correct_read, hintra, List.not_mem_nil, if_false, ne_eq, not_true_eq_false,
      false_and, if_neg, not_false_eq_true]
    apply List.ext_getElem?
    intro i
    by_cases hi : i < r.sequence.length
    · rw [List.getElem?_map, List.getElem?_range hi]
      have hc := hcons i hi
      simp only [List.getD_eq_getElem?_getD, List.getElem?_eq_getElem hi,
        Option.getD_some] at hc
      simp [List.getElem?_eq_getElem hi, ← hc]
    · have h1 : (List.range r.sequence.length)[i]? = none := by
        rw [List.getElem?_eq_none]
        simpa using Nat.le_of_not_lt hi
      rw [List.getElem?_map, h1, List.getElem?_eq_none (by simpa using Nat.le_of_not_lt hi)]
      rfl

/-- Witness for C6: a two-base all-consensus read on a two-position tally, with
the single cached covarying site 5 outside the read's span. -/
theorem corrected_read_roundtrip_witness :
    corrected_reads ⟨[⟨"read1", 0, ['A', 'A'], ['A', 'A'], [(0, 0), (1, 1)], 2⟩], 10,
        [⟨1, 0, 0, 0, 0⟩, ⟨1, 0, 0, 0, 0⟩], [], some [5], 1/1000, 0⟩ =
      .ok ([⟨"read1", 0, ['A', 'A'], ['A', 'A'], [(0, 0), (1, 1)], 2⟩].map
        (correct_read [⟨1, 0, 0, 0, 0⟩, ⟨1, 0, 0, 0, 0⟩] 0 10 [5])) ∧
    correct_read [⟨1, 0, 0, 0, 0⟩, ⟨1, 0, 0, 0, 0⟩] 0 10 [5]
        ⟨"read1", 0, ['A', 'A'], ['A', 'A'], [(0, 0), (1, 1)], 2⟩ ∈
      [⟨"read1", 0, ['A', 'A'], ['A', 'A'], [(0, 0), (1, 1)], 2⟩].map
        (correct_read [⟨1, 0, 0, 0, 0⟩, ⟨1, 0, 0, 0, 0⟩] 0 10 [5]) ∧
    (correct_read [⟨1, 0, 0, 0, 0⟩, ⟨1, 0, 0, 0, 0⟩] 0 10 [5]
        ⟨"read1", 0, ['A', 'A'], ['A', 'A'], [(0, 0), (1, 1)], 2⟩).sequence =
      (⟨"read1", 0, ['A', 'A'], ['A', 'A'], [(0, 0), (1, 1)], 2⟩ : Read).sequence :=
  corrected_read_roundtrip
    ⟨[⟨"read1", 0, ['A', 'A'], ['A', 'A'], [(0, 0), (1, 1)], 2⟩], 10,
      [⟨1, 0, 0, 0, 0⟩, ⟨1, 0, 0, 0, 0⟩], [], some [5], 1/1000, 0⟩
    [5] ⟨"read1", 0, ['A', 'A'], ['A', 'A'], [(0, 0), (1, 1)], 2⟩
    rfl rfl (by decide) rfl (by decide) (by decide)
